import Mathlib

/-!
Verification of the Opey streaming-chat core of OBP-svelte-components:
a shallow embedding of `ChatState` (src/lib/opey/state/ChatState.ts),
`ChatController` (src/lib/opey/controllers/ChatController.ts) and the
stream-decoding part of `RestChatService`
(src/lib/opey/services/RestChatService.ts), together with theorems about
the transcript state machine.

Modelling conventions:
* JS objects become Lean structures; optional / possibly-`undefined`
  fields become `Option`.
* `Date` values are opaque ticks modelled as `Nat` (no claim depends on
  time).
* `Record<string, any>` payloads (tool inputs) are opaque and modelled
  as `String`.
* Every mutating `ChatState` method returns the new state together with
  the list of subscriber notifications (`Call`s) produced by `emit()`;
  subscribers are identified by numeric ids.
* JS truthiness on optional strings (`undefined` and `""` are falsy) is
  modelled by `jsTruthy` / `jsOr`.
-/

namespace Opey

/-- Role union from src/lib/opey/types.ts. -/
inductive Role where
  | user
  | assistant
  | tool
  | error
  | approval_request
  deriving DecidableEq, Repr

/-- The `approvalStatus` union: 'approved' | 'denied'. -/
inductive ApprovalStatus where
  | approved
  | denied
  deriving DecidableEq, Repr

/-- The tool `status` union: 'success' | 'error'. -/
inductive ToolStatus where
  | success
  | error
  deriving DecidableEq, Repr

/-- An opaque `toolOutput` value (`any` in TS): either a JS string or a
non-string value carried by its `JSON.stringify` image. -/
inductive ToolOutput where
  | str (s : String)
  | obj (stringified : String)
  deriving DecidableEq, Repr

/-- Message record: the union of `BaseMessage` and `ToolMessage` fields
from src/lib/opey/types.ts (TS interfaces with optional fields become
one structure with `Option` fields). -/
structure Message where
  id : String
  correlationId : Option String := none
  role : Role
  message : String := ""
  timestamp : Nat := 0
  isStreaming : Option Bool := none
  isLoading : Option Bool := none
  isPending : Option Bool := none
  error : Option String := none
  cancelled : Option Bool := none
  toolName : Option String := none
  toolCallId : Option String := none
  toolInput : Option String := none
  status : Option ToolStatus := none
  toolOutput : Option ToolOutput := none
  instanceNumber : Option Nat := none
  waitingForApproval : Option Bool := none
  approvalStatus : Option ApprovalStatus := none
  approvalLevel : Option String := none
  approvalMessage : Option String := none
  riskLevel : Option String := none
  affectedResources : Option (List String) := none
  reversible : Option Bool := none
  estimatedImpact : Option String := none
  similarOperationsCount : Option Nat := none
  availableApprovalLevels : Option (List String) := none
  defaultApprovalLevel : Option String := none
  deriving DecidableEq, Repr

/-- `ChatStateSnapshot` from ChatState.ts. -/
structure Snapshot where
  threadId : String
  messages : List Message
  deriving DecidableEq, Repr

/-- One synchronous invocation of a subscriber callback: subscriber id
paired with the snapshot it receives. -/
abbrev Call := Nat × Snapshot

/-- JS truthiness of an optional string (`undefined` and `""` are
falsy). -/
def jsTruthy : Option String → Bool
  | none => false
  | some s => s != ""

/-- JS `a || b` on optional strings. -/
def jsOr (a b : Option String) : Option String :=
  if jsTruthy a then a else b

/-- Replace the first element satisfying `p` by its image under `f`
(models the JS find-then-mutate-in-place idiom). -/
def updateFirst (p : Message → Bool) (f : Message → Message) : List Message → List Message
  | [] => []
  | m :: ms => if p m then f m :: ms else m :: updateFirst p f ms

/-- Does the haystack list contain the needle as a contiguous sublist
(models JS `String.prototype.includes` at the char-list level)? -/
def listContainsSub (haystack needle : List Char) : Bool :=
  match haystack with
  | [] => needle.isEmpty
  | _ :: rest => needle.isPrefixOf haystack || listContainsSub rest needle

/-- JS `s.includes(pat)`. -/
def stringIncludes (s pat : String) : Bool :=
  listContainsSub s.data pat.data

/-- Mutable conversation state (ChatState.ts). `sessionStartTime` and
the dead private helper `isStaleMessage` (never called) are omitted;
subscribers are kept as a list of callback ids. -/
structure ChatState where
  threadId : String
  messages : List Message := []
  subscribers : List Nat := []
  deriving DecidableEq, Repr

namespace ChatState

/-- The snapshot handed to subscribers by `emit()`. -/
def snapshot (st : ChatState) : Snapshot :=
  { threadId := st.threadId, messages := st.messages }

/-- `emit()`: invoke every subscriber with the current snapshot. -/
def emit (st : ChatState) : List Call :=
  st.subscribers.map (fun s => (s, st.snapshot))

/-- `getThreadId()`. -/
def getThreadId (st : ChatState) : String := st.threadId

/-- `setThreadId(newId)`: reset to a new thread, clearing messages. -/
def setThreadId (st : ChatState) (newId : String) : ChatState × List Call :=
  let st := { st with threadId := newId, messages := [] }
  (st, st.emit)

/-- `syncThreadId(backendThreadId)`: adopt the backend thread id without
clearing messages; emits only when the id actually changes. -/
def syncThreadId (st : ChatState) (backendThreadId : String) : ChatState × List Call :=
  if st.threadId != backendThreadId then
    let st := { st with threadId := backendThreadId }
    (st, st.emit)
  else (st, [])

/-- Predicate used by `syncUserMessage`: pending message with the given
correlation id (JS `msg.correlationId === correlationId && msg.isPending === true`). -/
def isPendingWithCorrelation (correlationId : String) (msg : Message) : Bool :=
  msg.correlationId == some correlationId && msg.isPending == some true

/-- `syncUserMessage(backendId, correlationId)`: if a message with the
backend id already exists, skip; otherwise resolve the first pending
message with the matching correlation id (JS `findIndex` + in-place
update is modelled as update-of-first-match); if none matches, drop. -/
def syncUserMessage (st : ChatState) (backendId correlationId : String) : ChatState × List Call :=
  if st.messages.any (fun msg => msg.id == backendId) then (st, [])
  else if st.messages.any (isPendingWithCorrelation correlationId) then
    let st := { st with
      messages := updateFirst (isPendingWithCorrelation correlationId)
        (fun m => { m with id := backendId, isPending := some false }) st.messages }
    (st, st.emit)
  else (st, [])

/-- `addMessage(message)`: append unless the id is already present. -/
def addMessage (st : ChatState) (message : Message) : ChatState × List Call :=
  if st.messages.any (fun existing => existing.id == message.id) then (st, [])
  else
    let st := { st with messages := st.messages ++ [message] }
    (st, st.emit)

/-- `addToolMessage(toolMessage)`: same duplicate-id guard and append as
`addMessage` (the source duplicates the logic). -/
def addToolMessage (st : ChatState) (toolMessage : Message) : ChatState × List Call :=
  if st.messages.any (fun existing => existing.id == toolMessage.id) then (st, [])
  else
    let st := { st with messages := st.messages ++ [toolMessage] }
    (st, st.emit)

/-- `getMessage(messageId)`. -/
def getMessage (st : ChatState) (messageId : String) : Option Message :=
  st.messages.find? (fun msg => msg.id == messageId)

/-- Predicate of `getToolMessageByCallId`: tool message with the given
toolCallId. -/
def isToolWithCallId (toolCallId : String) (msg : Message) : Bool :=
  msg.role == Role.tool && msg.toolCallId == some toolCallId

/-- `getToolMessageByCallId(toolCallId)`. -/
def getToolMessageByCallId (st : ChatState) (toolCallId : String) : Option Message :=
  st.messages.find? (isToolWithCallId toolCallId)

end ChatState

/-- The approval metadata record passed to `addApprovalRequest`. -/
structure ApprovalMetadata where
  riskLevel : String
  affectedResources : List String
  reversible : Bool
  estimatedImpact : String
  similarOperationsCount : Nat
  availableApprovalLevels : List String
  defaultApprovalLevel : String
  deriving DecidableEq, Repr

namespace ChatState

/-- `addApprovalRequest(toolCallId, toolName, toolInput, approvalMessage, metadata)`:
upserts — updates the existing tool message found by toolCallId, or
creates one with waitingForApproval = true. Note that in the creating
branch the source emits twice: once inside `addToolMessage` and once at
the end of the method. `now` models the `new Date()` timestamp. -/
def addApprovalRequest (st : ChatState) (toolCallId toolName toolInput approvalMessage : String)
    (metadata : ApprovalMetadata) (now : Nat) : ChatState × List Call :=
  match st.getToolMessageByCallId toolCallId with
  | some _ =>
    let st := { st with
      messages := updateFirst (isToolWithCallId toolCallId)
        (fun m => { m with
          waitingForApproval := some true
          approvalStatus := none
          approvalMessage := some approvalMessage
          riskLevel := some metadata.riskLevel
          affectedResources := some metadata.affectedResources
          reversible := some metadata.reversible
          estimatedImpact := some metadata.estimatedImpact
          similarOperationsCount := some metadata.similarOperationsCount
          availableApprovalLevels := some metadata.availableApprovalLevels
          defaultApprovalLevel := some metadata.defaultApprovalLevel }) st.messages }
    (st, st.emit)
  | none =>
    let r1 := st.addToolMessage {
      id := toolCallId
      role := Role.tool
      message := ""
      timestamp := now
      toolCallId := some toolCallId
      toolName := some toolName
      toolInput := some toolInput
      isStreaming := some false
      waitingForApproval := some true
      approvalMessage := some approvalMessage
      riskLevel := some metadata.riskLevel
      affectedResources := some metadata.affectedResources
      reversible := some metadata.reversible
      estimatedImpact := some metadata.estimatedImpact
      similarOperationsCount := some metadata.similarOperationsCount
      availableApprovalLevels := some metadata.availableApprovalLevels
      defaultApprovalLevel := some metadata.defaultApprovalLevel }
    (r1.fst, r1.snd ++ r1.fst.emit)

/-- One element of a `batch_approval_request` payload (the camelCase
shape produced by the service layer). -/
structure BatchToolCall where
  toolCallId : String
  toolName : String
  toolInput : String
  message : String
  riskLevel : String
  affectedResources : List String
  reversible : Bool
  estimatedImpact : String
  similarOperationsCount : Nat
  availableApprovalLevels : List String
  defaultApprovalLevel : String
  operation : Option String := none
  endpoint : Option String := none
  method : Option String := none
  deriving DecidableEq, Repr

/-- `addBatchApprovalRequest(toolCalls)`: `addApprovalRequest` for each
entry in order. -/
def addBatchApprovalRequest (st : ChatState) (toolCalls : List BatchToolCall) (now : Nat) :
    ChatState × List Call :=
  toolCalls.foldl
    (fun acc tc =>
      let r1 := acc.fst.addApprovalRequest tc.toolCallId tc.toolName tc.toolInput
        tc.message
        { riskLevel := tc.riskLevel
          affectedResources := tc.affectedResources
          reversible := tc.reversible
          estimatedImpact := tc.estimatedImpact
          similarOperationsCount := tc.similarOperationsCount
          availableApprovalLevels := tc.availableApprovalLevels
          defaultApprovalLevel := tc.defaultApprovalLevel } now
      (r1.fst, acc.snd ++ r1.snd))
    (st, [])

/-- `getPendingApprovals()`. -/
def getPendingApprovals (st : ChatState) : List Message :=
  st.messages.filter (fun msg => msg.role == Role.tool && msg.waitingForApproval == some true)

/-- `updateApprovalRequest(toolCallId, approved)`: sets approvalStatus
only (not waitingForApproval); the source emits even when no tool
message matches. -/
def updateApprovalRequest (st : ChatState) (toolCallId : String) (approved : Bool) :
    ChatState × List Call :=
  let st := { st with
    messages := updateFirst (isToolWithCallId toolCallId)
      (fun m => { m with
        approvalStatus := some (if approved then ApprovalStatus.approved else ApprovalStatus.denied) })
      st.messages }
  (st, st.emit)

/-- The in-place mutation applied by `removeApprovalRequest` to the
found tool message: clear waitingForApproval, keep approvalStatus, and
mark the tool streaming when it had been approved. -/
def removeApprovalUpdate (m : Message) : Message :=
  let m := { m with waitingForApproval := some false }
  if m.approvalStatus == some ApprovalStatus.approved then { m with isStreaming := some true }
  else m

/-- `removeApprovalRequest(toolCallId)`: applies `removeApprovalUpdate`
to the tool message found by toolCallId; emits unconditionally. -/
def removeApprovalRequest (st : ChatState) (toolCallId : String) : ChatState × List Call :=
  let st := { st with
    messages := updateFirst (isToolWithCallId toolCallId) removeApprovalUpdate st.messages }
  (st, st.emit)

/-- `removeLoadingMessages()`: drop every message whose isLoading is
truthy. -/
def removeLoadingMessages (st : ChatState) : ChatState × List Call :=
  let st := { st with messages := st.messages.filter (fun msg => !(msg.isLoading == some true)) }
  (st, st.emit)

/-- `appendToMessage(messageId, text)`: append to the first message with
the id; silently ignored when the id is unknown. -/
def appendToMessage (st : ChatState) (messageId text : String) : ChatState × List Call :=
  if st.messages.any (fun msg => msg.id == messageId) then
    let st := { st with
      messages := updateFirst (fun msg => msg.id == messageId)
        (fun m => { m with message := m.message ++ text }) st.messages }
    (st, st.emit)
  else (st, [])

/-- `markMessageComplete(messageId)`: clears isStreaming on the first
message with the id; no-op when the id is unknown or the message is not
streaming (JS `!message.isStreaming`). -/
def markMessageComplete (st : ChatState) (messageId : String) : ChatState × List Call :=
  match st.messages.find? (fun msg => msg.id == messageId) with
  | none => (st, [])
  | some message =>
    if !(message.isStreaming == some true) then (st, [])
    else
      let st := { st with
        messages := updateFirst (fun msg => msg.id == messageId)
          (fun m => { m with isStreaming := some false }) st.messages }
      (st, st.emit)

/-- `updateMessage(messageId, updates)`: `Object.assign` of the literal
update object is modelled by the call site passing the corresponding
field transformer. -/
def updateMessage (st : ChatState) (messageId : String) (updates : Message → Message) :
    ChatState × List Call :=
  if st.messages.any (fun msg => msg.id == messageId) then
    let st := { st with
      messages := updateFirst (fun msg => msg.id == messageId) updates st.messages }
    (st, st.emit)
  else (st, [])

/-- `updateToolMessage(toolCallId, updates)`: like `updateMessage` but
keyed by toolCallId via `getToolMessageByCallId`. -/
def updateToolMessage (st : ChatState) (toolCallId : String) (updates : Message → Message) :
    ChatState × List Call :=
  if st.messages.any (isToolWithCallId toolCallId) then
    let st := { st with
      messages := updateFirst (isToolWithCallId toolCallId) updates st.messages }
    (st, st.emit)
  else (st, [])

/-- `subscribe(fn)`: registers the subscriber and synchronously invokes
it once with the current snapshot. -/
def subscribe (st : ChatState) (fid : Nat) : ChatState × List Call :=
  let st := { st with subscribers := st.subscribers ++ [fid] }
  (st, [(fid, st.snapshot)])

/-- `stopAllStreaming()`: flip every streaming message to terminal and
cancelled; emits only when something was streaming. -/
def stopAllStreaming (st : ChatState) : ChatState × List Call :=
  let updated := st.messages.any (fun msg => msg.isStreaming == some true)
  if updated then
    let st := { st with
      messages := st.messages.map (fun m =>
        if m.isStreaming == some true then
          { m with isStreaming := some false, cancelled := some true }
        else m) }
    (st, st.emit)
  else (st, [])

/-- `removeMessagesAfter(messageId)`: truncate the transcript to end at
the given id (inclusive); a missing id is a reported no-op. -/
def removeMessagesAfter (st : ChatState) (messageId : String) : ChatState × List Call :=
  match st.messages.findIdx? (fun msg => msg.id == messageId) with
  | none => (st, [])
  | some index =>
    let st := { st with messages := st.messages.take (index + 1) }
    (st, st.emit)

/-- `clear()`. -/
def clear (st : ChatState) : ChatState × List Call :=
  let st := { st with messages := [] }
  (st, st.emit)

end ChatState

/-- The normalized StreamEvent union from ChatService.ts. Fields typed
as required strings in TS are plain `String` here; fields that are
optional in TS stay `Option`. -/
inductive StreamEvent where
  | user_message_confirmed (messageId correlationId content : String) (timestamp : Nat)
  | assistant_start (messageId : String) (timestamp : Nat)
  | assistant_token (messageId token : String)
  | assistant_complete (messageId : String)
  | tool_start (toolCallId toolName toolInput : String)
  | tool_token (toolCallId token : String)
  | tool_complete (toolCallId toolName : String) (toolOutput : Option ToolOutput)
      (status : ToolStatus)
  | approval_request (toolCallId toolName toolInput message riskLevel : String)
      (affectedResources : List String) (reversible : Bool) (estimatedImpact : String)
      (similarOperationsCount : Nat) (availableApprovalLevels : List String)
      (defaultApprovalLevel : String)
  | batch_approval_request (toolCalls : List ChatState.BatchToolCall) (options : List String)
  | thread_sync (threadId : String)
  | error (messageId : Option String) (err : String)
  deriving DecidableEq, Repr

/-- Deterministic stand-in for `uuidv4()`: the controller consumes a
counter; freshness of generated ids is stated explicitly as theorem
hypotheses where it matters. -/
def uuidv4 (n : Nat) : String := "uuid-" ++ toString n

/-- JS truthiness of a `toolOutput` value (`undefined` and `""` are
falsy, every other string and every object is truthy). -/
def jsTruthyOutput : Option ToolOutput → Bool
  | none => false
  | some (ToolOutput.str s) => s != ""
  | some (ToolOutput.obj _) => true

/-- The string form of a toolOutput used in the synthesized error text
(`typeof output === 'string' ? output : JSON.stringify(output)`). -/
def toolOutputString : Option ToolOutput → String
  | none => ""
  | some (ToolOutput.str s) => s
  | some (ToolOutput.obj j) => j

/-- ChatController state: the owned ChatState plus the per-toolName
instance counters, the uuid counter and an opaque clock tick. -/
structure ChatController where
  chat : ChatState
  toolInstanceCounts : List (String × Nat) := []
  nextUuid : Nat := 0
  now : Nat := 0
  deriving DecidableEq, Repr

/-- Lookup in the `toolInstanceCounts` record (absent keys read as the
JS falsy `undefined`, initialized to 0 by `assignToolInstance`). -/
def lookupToolCount (counts : List (String × Nat)) (toolName : String) : Nat :=
  match counts.find? (fun p => p.fst == toolName) with
  | some p => p.snd
  | none => 0

/-- Store a value in the `toolInstanceCounts` record. -/
def setToolCount : List (String × Nat) → String → Nat → List (String × Nat)
  | [], toolName, n => [(toolName, n)]
  | p :: ps, toolName, n =>
    if p.fst == toolName then (toolName, n) :: ps else p :: setToolCount ps toolName n

namespace ChatController

/-- `assignToolInstance(toolName)`: initialize the per-toolName counter
to 0 when absent, increment it, and return the new value. -/
def assignToolInstance (c : ChatController) (toolName : String) : ChatController × Nat :=
  let next := lookupToolCount c.toolInstanceCounts toolName + 1
  ({ c with toolInstanceCounts := setToolCount c.toolInstanceCounts toolName next }, next)

/-- The `onStreamEvent` reducer registered in the ChatController
constructor: one state mutation per event case. -/
def reduce (c : ChatController) (event : StreamEvent) : ChatController × List Call :=
  match event with
  | StreamEvent.user_message_confirmed messageId correlationId _ _ =>
    let r := c.chat.syncUserMessage messageId correlationId
    ({ c with chat := r.fst }, r.snd)
  | StreamEvent.thread_sync threadId =>
    let r := c.chat.syncThreadId threadId
    ({ c with chat := r.fst }, r.snd)
  | StreamEvent.assistant_start messageId timestamp =>
    let r1 := c.chat.removeLoadingMessages
    let r2 := r1.fst.addMessage {
      id := messageId
      role := Role.assistant
      message := ""
      timestamp := timestamp
      isStreaming := some true }
    ({ c with chat := r2.fst }, r1.snd ++ r2.snd)
  | StreamEvent.assistant_token messageId token =>
    let r := c.chat.appendToMessage messageId token
    ({ c with chat := r.fst }, r.snd)
  | StreamEvent.assistant_complete messageId =>
    let r := c.chat.markMessageComplete messageId
    ({ c with chat := r.fst }, r.snd)
  | StreamEvent.tool_start toolCallId toolName toolInput =>
    let r1 := c.chat.removeApprovalRequest toolCallId
    let c1 := { c with chat := r1.fst }
    let a := c1.assignToolInstance toolName
    let r2 := a.fst.chat.addToolMessage {
      id := toolCallId
      role := Role.tool
      message := ""
      timestamp := c.now
      toolCallId := some toolCallId
      toolName := some toolName
      toolInput := some toolInput
      isStreaming := some true
      instanceNumber := some a.snd }
    ({ a.fst with chat := r2.fst }, r1.snd ++ r2.snd)
  | StreamEvent.tool_token _ _ => (c, [])
  | StreamEvent.tool_complete toolCallId _ toolOutput status =>
    let updates : Message → Message := fun m =>
      let m := { m with toolOutput := toolOutput, status := some status }
      if status == ToolStatus.error && jsTruthyOutput toolOutput then
        { m with error := some ("Tool execution failed: " ++ toolOutputString toolOutput) }
      else m
    let r1 := c.chat.updateToolMessage toolCallId updates
    let r2 := r1.fst.markMessageComplete toolCallId
    ({ c with chat := r2.fst }, r1.snd ++ r2.snd)
  | StreamEvent.error messageId err =>
    match messageId with
    | some mid =>
      match c.chat.getMessage mid with
      | some message =>
        if message.role != Role.tool then
          let r := c.chat.updateMessage mid (fun m => { m with error := some err })
          ({ c with chat := r.fst }, r.snd)
        else (c, [])
      | none => (c, [])
    | none =>
      let r := c.chat.addMessage {
        id := uuidv4 c.nextUuid
        role := Role.error
        message := ""
        timestamp := c.now
        error := some err }
      ({ c with chat := r.fst, nextUuid := c.nextUuid + 1 }, r.snd)
  | StreamEvent.approval_request toolCallId toolName toolInput message riskLevel
      affectedResources reversible estimatedImpact similarOperationsCount
      availableApprovalLevels defaultApprovalLevel =>
    let r := c.chat.addApprovalRequest toolCallId toolName toolInput message
      { riskLevel := riskLevel
        affectedResources := affectedResources
        reversible := reversible
        estimatedImpact := estimatedImpact
        similarOperationsCount := similarOperationsCount
        availableApprovalLevels := availableApprovalLevels
        defaultApprovalLevel := defaultApprovalLevel } c.now
    ({ c with chat := r.fst }, r.snd)
  | StreamEvent.batch_approval_request toolCalls _ =>
    let r := c.chat.addBatchApprovalRequest toolCalls c.now
    ({ c with chat := r.fst }, r.snd)

/-- The `onError` handler registered in the constructor: clear loading
placeholders, suppress the user-initiated abort signal, otherwise add a
standalone error message. -/
def handleError (c : ChatController) (errMessage : String) : ChatController × List Call :=
  let r1 := c.chat.removeLoadingMessages
  if stringIncludes errMessage "BodyStreamBuffer was aborted" then
    ({ c with chat := r1.fst }, r1.snd)
  else
    let r2 := r1.fst.addMessage {
      id := uuidv4 c.nextUuid
      role := Role.error
      message := ""
      timestamp := c.now
      error := some errMessage }
    ({ c with chat := r2.fst, nextUuid := c.nextUuid + 1 }, r1.snd ++ r2.snd)

/-- `send(text)`: optimistic pending user message (correlationId used as
temporary id) plus a loading placeholder; the transport call itself is
outside the state model. -/
def send (c : ChatController) (text : String) : ChatController × List Call :=
  let correlationId := uuidv4 c.nextUuid
  let r1 := c.chat.addMessage {
    id := correlationId
    correlationId := some correlationId
    role := Role.user
    message := text
    timestamp := c.now
    isPending := some true }
  let loadingMessageId := uuidv4 (c.nextUuid + 1)
  let r2 := r1.fst.addMessage {
    id := loadingMessageId
    role := Role.assistant
    message := ""
    timestamp := c.now
    isLoading := some true }
  ({ c with chat := r2.fst, nextUuid := c.nextUuid + 2 }, r1.snd ++ r2.snd)

/-- `approveToolCall(toolCallId, approvalLevel?)`: optimistic approval,
then the network call; `networkError = some e` models `sendApproval`
rejecting with error message `e`, in which case the update is reverted
and an error string attached. -/
def approveToolCall (c : ChatController) (toolCallId : String) (approvalLevel : Option String)
    (networkError : Option String) : ChatController × List Call :=
  let toolMessage := c.chat.getToolMessageByCallId toolCallId
  let levelToUse :=
    (jsOr approvalLevel (jsOr (toolMessage.bind (fun m => m.defaultApprovalLevel))
      (some "user"))).getD "user"
  let r1 := c.chat.updateApprovalRequest toolCallId true
  let r2 := r1.fst.updateToolMessage toolCallId (fun m => { m with
    approvalStatus := some ApprovalStatus.approved
    approvalLevel := some levelToUse
    waitingForApproval := some false })
  match networkError with
  | none => ({ c with chat := r2.fst }, r1.snd ++ r2.snd)
  | some e =>
    let r3 := r2.fst.updateToolMessage toolCallId (fun m => { m with
      approvalStatus := none
      approvalLevel := none
      waitingForApproval := some true
      error := some ("Failed to send approval: " ++ e) })
    ({ c with chat := r3.fst }, r1.snd ++ r2.snd ++ r3.snd)

/-- `denyToolCall(toolCallId)`: optimistic denial, then the network
call; on failure the denial is kept and only an error note attached. -/
def denyToolCall (c : ChatController) (toolCallId : String) (networkError : Option String) :
    ChatController × List Call :=
  let r1 := c.chat.updateApprovalRequest toolCallId false
  let r2 := r1.fst.updateToolMessage toolCallId (fun m => { m with
    approvalStatus := some ApprovalStatus.denied
    waitingForApproval := some false
    isStreaming := some false
    status := some ToolStatus.error
    toolOutput := some (ToolOutput.str "Tool execution was denied by user") })
  match networkError with
  | none => ({ c with chat := r2.fst }, r1.snd ++ r2.snd)
  | some e =>
    let r3 := r2.fst.updateToolMessage toolCallId (fun m => { m with
      error := some ("Failed to send denial: " ++ e) })
    ({ c with chat := r3.fst }, r1.snd ++ r2.snd ++ r3.snd)

/-- `submitBatchApproval(decisions)`: all optimistic updates first, then
one network call; on failure every decision in the batch is reverted. -/
def submitBatchApproval (c : ChatController)
    (decisions : List (String × Bool × String)) (networkError : Option String) :
    ChatController × List Call :=
  let optimistic := decisions.foldl
    (fun acc d =>
      let r1 := (Prod.fst acc).updateApprovalRequest d.fst d.snd.fst
      let r2 :=
        if d.snd.fst then
          r1.fst.updateToolMessage d.fst (fun m => { m with
            approvalStatus := some ApprovalStatus.approved
            approvalLevel := some d.snd.snd
            waitingForApproval := some false })
        else
          r1.fst.updateToolMessage d.fst (fun m => { m with
            approvalStatus := some ApprovalStatus.denied
            waitingForApproval := some false
            isStreaming := some false
            status := some ToolStatus.error
            toolOutput := some (ToolOutput.str "Tool execution was denied by user") })
      (r2.fst, acc.snd ++ r1.snd ++ r2.snd))
    (c.chat, [])
  match networkError with
  | none => ({ c with chat := optimistic.fst }, optimistic.snd)
  | some e =>
    let reverted := decisions.foldl
      (fun acc d =>
        let r1 := (Prod.fst acc).updateToolMessage d.fst (fun m => { m with
          approvalStatus := none
          approvalLevel := none
          waitingForApproval := some true
          error := some ("Failed to send approval: " ++ e) })
        (r1.fst, acc.snd ++ r1.snd))
      optimistic
    ({ c with chat := reverted.fst }, reverted.snd)

/-- `stop()`: mark streaming messages terminal locally first; the
backend cancellation is outside the state model. -/
def stop (c : ChatController) : ChatController × List Call :=
  let r := c.chat.stopAllStreaming
  ({ c with chat := r.fst }, r.snd)

/-- `regenerate(messageId)`: truncate after the message, insert a
loading placeholder, then the transport call; on failure the loading
placeholder is removed again. -/
def regenerate (c : ChatController) (messageId : String) (networkError : Option String) :
    ChatController × List Call :=
  let r1 := c.chat.removeMessagesAfter messageId
  let loadingMessageId := uuidv4 c.nextUuid
  let r2 := r1.fst.addMessage {
    id := loadingMessageId
    role := Role.assistant
    message := ""
    timestamp := c.now
    isLoading := some true }
  let c2 := { c with chat := r2.fst, nextUuid := c.nextUuid + 1 }
  match networkError with
  | none => (c2, r1.snd ++ r2.snd)
  | some _ =>
    let r3 := r2.fst.removeLoadingMessages
    ({ c2 with chat := r3.fst }, r1.snd ++ r2.snd ++ r3.snd)

end ChatController

/-! ### RestChatService: stream decoding and response handling

The byte stream is modelled as a list of read results (each successful
`reader.read()` yields a string chunk; an abort makes the pending read
reject). `JSON.parse` of a payload is a parameter of the decoder
(`Except` error carries the stringified exception). The JS string
builtins used by `processStream` (split, startsWith, slice, trim) are
modelled at the char-list level so that everything computes in the
kernel. -/

/-- JS `string.split(sep)` on char lists: `""` splits to `[""]`, and a
trailing separator yields a trailing empty piece. -/
def jsSplitChars (sep : Char) : List Char → List (List Char)
  | [] => [[]]
  | c :: cs =>
    let rest := jsSplitChars sep cs
    if c == sep then [] :: rest
    else
      match rest with
      | [] => [[c]]
      | r :: rs => (c :: r) :: rs

/-- JS `s.split(sep)`. -/
def jsSplit (s : String) (sep : Char) : List String :=
  (jsSplitChars sep s.data).map String.mk

/-- The whitespace characters stripped by JS `trim()` that can occur in
this protocol. -/
def isJsWhitespace (c : Char) : Bool :=
  c == ' ' || c == '\t' || c == '\n' || c == '\r'

/-- JS `s.trim()`. -/
def jsTrim (s : String) : String :=
  String.mk (((s.data.dropWhile isJsWhitespace).reverse.dropWhile isJsWhitespace).reverse)

/-- JS `s.startsWith(p)`. -/
def jsStartsWith (s p : String) : Bool :=
  p.data.isPrefixOf s.data

/-- JS `s.slice(n)` for a nonnegative index. -/
def jsSlice (s : String) (n : Nat) : String :=
  String.mk (s.data.drop n)

/-- One entry of the raw (snake_case) `tool_calls` array of a
`batch_approval_request` wire event. -/
structure RawToolCall where
  tool_call_id : Option String := none
  tool_name : Option String := none
  tool_input : Option String := none
  message : Option String := none
  risk_level : Option String := none
  affected_resources : Option (List String) := none
  reversible : Option Bool := none
  estimated_impact : Option String := none
  similar_operations_count : Option Nat := none
  available_approval_levels : Option (List String) := none
  default_approval_level : Option String := none
  operation : Option String := none
  endpoint : Option String := none
  method : Option String := none
  deriving DecidableEq, Repr

/-- The loosely-typed JSON object produced by parsing one `data:` line:
snake_case wire fields, all optional (absent fields are JS
`undefined`). -/
structure RawEvent where
  type : String := ""
  message_id : Option String := none
  correlation_id : Option String := none
  content : Option String := none
  timestamp : Option Nat := none
  tool_call_id : Option String := none
  tool_input : Option String := none
  tool_name : Option String := none
  tool_output : Option ToolOutput := none
  status : Option String := none
  for_message_id : Option String := none
  error_message : Option String := none
  error : Option String := none
  message : Option String := none
  risk_level : Option String := none
  affected_resources : Option (List String) := none
  reversible : Option Bool := none
  estimated_impact : Option String := none
  similar_operations_count : Option Nat := none
  available_approval_levels : Option (List String) := none
  default_approval_level : Option String := none
  tool_calls : List RawToolCall := []
  options : Option (List String) := none
  deriving DecidableEq, Repr

/-- The per-entry camelCase mapping applied to `tool_calls` inside the
`batch_approval_request` case of `handleStreamEvent`. -/
def mapRawToolCall (tc : RawToolCall) : ChatState.BatchToolCall :=
  { toolCallId := tc.tool_call_id.getD ""
    toolName := tc.tool_name.getD ""
    toolInput := tc.tool_input.getD ""
    message := (jsOr tc.message (some "Approval required")).getD ""
    riskLevel := (jsOr tc.risk_level (some "moderate")).getD ""
    affectedResources := tc.affected_resources.getD []
    reversible := tc.reversible.getD true
    estimatedImpact := (jsOr tc.estimated_impact (some "")).getD ""
    similarOperationsCount := tc.similar_operations_count.getD 0
    availableApprovalLevels := tc.available_approval_levels.getD ["once", "session"]
    defaultApprovalLevel := (jsOr tc.default_approval_level (some "once")).getD ""
    operation := tc.operation
    endpoint := tc.endpoint
    method := tc.method }

/-- `handleStreamEvent(eventData)`: the snake_case to camelCase switch.
Unknown `type` values are logged and produce no callback (`none`).
Wire fields that the TS event type declares as required strings default
to `""` when absent (the loosely-typed JS value would be `undefined`);
the tool `status` is cast onto the success/error union as in the
source. -/
def handleStreamEvent (e : RawEvent) : Option StreamEvent :=
  match e.type with
  | "user_message_confirmed" =>
    some (StreamEvent.user_message_confirmed (e.message_id.getD "") (e.correlation_id.getD "")
      (e.content.getD "") (e.timestamp.getD 0))
  | "assistant_start" =>
    some (StreamEvent.assistant_start (e.message_id.getD "") (e.timestamp.getD 0))
  | "assistant_token" =>
    some (StreamEvent.assistant_token (e.message_id.getD "") (e.content.getD ""))
  | "assistant_complete" =>
    some (StreamEvent.assistant_complete (e.message_id.getD ""))
  | "tool_start" =>
    some (StreamEvent.tool_start (e.tool_call_id.getD "") (e.tool_name.getD "")
      (e.tool_input.getD ""))
  | "tool_token" =>
    some (StreamEvent.tool_token (e.tool_call_id.getD "") (e.content.getD ""))
  | "tool_complete" =>
    some (StreamEvent.tool_complete (e.tool_call_id.getD "") (e.tool_name.getD "")
      e.tool_output (if e.status == some "error" then ToolStatus.error else ToolStatus.success))
  | "error" =>
    some (StreamEvent.error e.for_message_id ((jsOr e.error_message e.error).getD ""))
  | "approval_request" =>
    some (StreamEvent.approval_request (e.tool_call_id.getD "") (e.tool_name.getD "")
      (e.tool_input.getD "")
      ((jsOr e.message (some "Approval required")).getD "")
      ((jsOr e.risk_level (some "medium")).getD "")
      (e.affected_resources.getD [])
      (e.reversible.getD true)
      ((jsOr e.estimated_impact (some "")).getD "")
      (e.similar_operations_count.getD 0)
      (e.available_approval_levels.getD ["user"])
      ((jsOr e.default_approval_level (some "user")).getD ""))
  | "batch_approval_request" =>
    some (StreamEvent.batch_approval_request (e.tool_calls.map mapRawToolCall)
      (e.options.getD []))
  | _ => none

/-- A JS `Error` / `DOMException` as observed by catch blocks. -/
structure JsError where
  name : String
  message : String
  deriving DecidableEq, Repr

/-- Outcome of one `reader.read()` call: a decoded chunk, or rejection
of the pending read (for instance when the fetch is aborted
mid-stream). End of the list models `done: true`. -/
inductive ReadResult where
  | chunk (value : String)
  | exn (e : JsError)
  deriving DecidableEq, Repr

/-- The inner `for (const line of lines)` loop of `processStream` on the
complete lines of one chunk: returns the stream events emitted (through
`handleStreamEvent`) and the parse errors delivered to the error
callback. A `data: ` line whose payload trims to `[DONE]` executes
`break`, abandoning the remaining lines of this chunk. -/
def processChunkLines (parse : String → Except String RawEvent) :
    List String → List StreamEvent × List String
  | [] => ([], [])
  | line :: rest =>
    if jsStartsWith line "data: " then
      if jsTrim (jsSlice line 6) == "[DONE]" then ([], [])
      else
        match parse (jsSlice line 6) with
        | Except.ok raw =>
          let (evs, errs) := processChunkLines parse rest
          ((handleStreamEvent raw).toList ++ evs, errs)
        | Except.error e =>
          let (evs, errs) := processChunkLines parse rest
          (evs, ("Failed to parse event data: " ++ e) :: errs)
    else processChunkLines parse rest

/-- `processStream(reader)`: the `while (true)` read loop. Each chunk is
appended to the carried buffer, split on newlines, the last (possibly
incomplete) line is kept as the new buffer, and the complete lines are
handled by the inner loop. The `break` on `[DONE]` only leaves the
inner loop, so reading continues with the next chunk. A rejected read
is caught and its message delivered to the error callback. -/
def processStream (parse : String → Except String RawEvent) :
    List ReadResult → String → List StreamEvent × List String
  | [], _ => ([], [])
  | ReadResult.chunk value :: rest, buffer =>
    let lines := jsSplit (buffer ++ value) '\n'
    let newBuffer := (lines.getLast?).getD ""
    let (evs, errs) := processChunkLines parse lines.dropLast
    let (evs2, errs2) := processStream parse rest newBuffer
    (evs ++ evs2, errs ++ errs2)
  | ReadResult.exn e :: _, _ => ([], [e.message])

/-- The parsed body of a non-2xx response as consulted by the error
path: `detail?.[0]` (msg and field), the `error` and `message` fields,
and the truthy string coercion used when the whole object is the
fallback. -/
structure ErrData where
  detail0 : Option (String × String) := none
  errorField : Option String := none
  messageField : Option String := none
  truthy : Bool := true
  asString : String := "[object Object]"
  deriving DecidableEq, Repr

/-- The synthetic error message computed for a non-2xx response:
HTTP-status fallback, overridden by the structured 422 validation
message or by `errorData.error || errorData.message || errorData`. -/
def computeErrorMessage (status : Nat) (statusText : String) (json : Option ErrData) : String :=
  let fallback := "HTTP " ++ toString status ++ ": " ++ statusText
  match json with
  | none => fallback
  | some d =>
    if status == 422 && d.detail0.isSome then
      match d.detail0 with
      | some p => "Validation error: " ++ p.fst ++ " (" ++ p.snd ++ ")"
      | none => fallback
    else
      (jsOr d.errorField (jsOr d.messageField
        (if d.truthy then some d.asString else none))).getD fallback

/-- A resolved `fetch` response: status line, the optional `X-Thread-ID`
header, the result of `res.json()` on the error path (`none` models a
body that fails to parse), and the body read results (`none` models a
missing `res.body`). -/
structure FetchResponse where
  ok : Bool
  status : Nat := 200
  statusText : String := ""
  xThreadId : Option String := none
  json : Option ErrData := none
  body : Option (List ReadResult) := none
  deriving DecidableEq, Repr

/-- Outcome of the `fetch` call itself. -/
inductive FetchOutcome where
  | resp (r : FetchResponse)
  | throws (e : JsError)
  deriving DecidableEq, Repr

/-- `handleStreamingResponse(url, init, threadId?)`: thread-sync header
detection, non-2xx synthetic error, missing-body error, stream
processing, and the catch that swallows `AbortError` from the fetch
itself. Returns the events given to the stream-event callback and the
error messages given to the error callback. -/
def handleStreamingResponse (parse : String → Except String RawEvent)
    (threadId : Option String) (outcome : FetchOutcome) :
    List StreamEvent × List String :=
  match outcome with
  | FetchOutcome.throws e =>
    if e.name == "AbortError" then ([], []) else ([], [e.message])
  | FetchOutcome.resp r =>
    let syncEvents :=
      if jsTruthy threadId then
        match r.xThreadId with
        | some rt => if rt != "" && some rt != threadId then [StreamEvent.thread_sync rt] else []
        | none => []
      else []
    if !r.ok then
      (syncEvents, [computeErrorMessage r.status r.statusText r.json])
    else
      match r.body with
      | none => (syncEvents, ["No response body"])
      | some reads =>
        let (evs, errs) := processStream parse reads ""
        (syncEvents ++ evs, errs)

/-! ### Operation algebra over the controller

Every externally triggerable operation of the controller/state pair, for
stating lifetime invariants such as the monotonicity of the tool
instance counters. -/

/-- An externally triggerable operation: a decoded stream event, the
transport error callback, or one of the public controller/state
operations (`cancel` only aborts the network request; `newThread` is
`ChatState.setThreadId`, `clearChat` is `ChatState.clear`). -/
inductive Op where
  | ev (e : StreamEvent)
  | transportError (message : String)
  | send (text : String)
  | approve (toolCallId : String) (level : Option String) (err : Option String)
  | deny (toolCallId : String) (err : Option String)
  | batch (decisions : List (String × Bool × String)) (err : Option String)
  | stop
  | regenerateFrom (messageId : String) (err : Option String)
  | cancel
  | newThread (id : String)
  | clearChat
  deriving DecidableEq, Repr

/-- Apply one operation to the controller (ignoring the emitted
subscriber calls). -/
def applyOp (c : ChatController) : Op → ChatController
  | Op.ev e => (c.reduce e).fst
  | Op.transportError m => (c.handleError m).fst
  | Op.send t => (c.send t).fst
  | Op.approve id lvl err => (c.approveToolCall id lvl err).fst
  | Op.deny id err => (c.denyToolCall id err).fst
  | Op.batch ds err => (c.submitBatchApproval ds err).fst
  | Op.stop => c.stop.fst
  | Op.regenerateFrom id err => (c.regenerate id err).fst
  | Op.cancel => c
  | Op.newThread id => { c with chat := (c.chat.setThreadId id).fst }
  | Op.clearChat => { c with chat := c.chat.clear.fst }

/-- Apply a sequence of operations left to right. -/
def applyOps (c : ChatController) : List Op → ChatController
  | [] => c
  | op :: ops => applyOps (applyOp c op) ops

/-- Number of `tool_start` events for a given toolName in an operation
sequence. -/
def countToolStarts (toolName : String) : List Op → Nat
  | [] => 0
  | Op.ev (StreamEvent.tool_start _ n _) :: ops =>
    (if n == toolName then 1 else 0) + countToolStarts toolName ops
  | _ :: ops => countToolStarts toolName ops

/-- The ordered concatenation of a list of token payloads. -/
def concatTokens : List String → String
  | [] => ""
  | t :: ts => t ++ concatTokens ts

/-- Number of loading placeholders (messages with truthy isLoading) in
the transcript. -/
def loadingCount (st : ChatState) : Nat :=
  st.messages.countP (fun m => m.isLoading == some true)

/-! ### Helper lemmas about the list primitives -/

theorem find?_append_first (p : Message → Bool) (l r : List Message) (a : Message)
    (hl : ∀ x ∈ l, p x = false) (ha : p a = true) :
    List.find? p (l ++ a :: r) = some a := by
  induction l with
  | nil => simp [List.find?_cons, ha]
  | cons x xs ih =>
    have hx : p x = false := hl x (by simp)
    simpa [List.find?_cons, hx] using ih (fun y hy => hl y (by simp [hy]))

theorem updateFirst_append (p : Message → Bool) (f : Message → Message)
    (l r : List Message) (a : Message)
    (hl : ∀ x ∈ l, p x = false) (ha : p a = true) :
    updateFirst p f (l ++ a :: r) = l ++ f a :: r := by
  induction l with
  | nil => simp [updateFirst, ha]
  | cons x xs ih =>
    have hx : p x = false := hl x (by simp)
    simpa [updateFirst, hx] using ih (fun y hy => hl y (by simp [hy]))

theorem updateFirst_countP (p : Message → Bool) (f : Message → Message)
    (q : Message → Bool) (l : List Message) (h : ∀ x, q (f x) = q x) :
    (updateFirst p f l).countP q = l.countP q := by
  induction l with
  | nil => rfl
  | cons x xs ih =>
    by_cases hx : p x = true
    · simp [updateFirst, hx, List.countP_cons, h]
    · simp only [Bool.not_eq_true] at hx
      simp [updateFirst, hx, List.countP_cons, ih]

theorem any_of_mem_true (p : Message → Bool) (l : List Message) (a : Message)
    (hmem : a ∈ l) (ha : p a = true) : l.any p = true :=
  List.any_eq_true.mpr ⟨a, hmem, ha⟩

/-! ### Claim C7 -/

/-- C7: calling addMessage or addToolMessage with a message whose id is
already present in the transcript is a no-op: the state (length and
every message) is unchanged and no subscriber notification fires. -/
theorem C7_duplicate_add_noop (st : ChatState) (m : Message)
    (h : ∃ existing ∈ st.messages, existing.id = m.id) :
    st.addMessage m = (st, []) ∧ st.addToolMessage m = (st, []) := by
  obtain ⟨ex, hmem, hid⟩ := h
  have hany : st.messages.any (fun existing => existing.id == m.id) = true :=
    any_of_mem_true _ _ ex hmem (by simp [hid])
  exact ⟨by simp [ChatState.addMessage, hany], by simp [ChatState.addToolMessage, hany]⟩

def w7existing : Message := { id := "m1", role := Role.user, message := "hi" }

def w7dup : Message := { id := "m1", role := Role.assistant, message := "other" }

def w7st : ChatState := { threadId := "t", messages := [w7existing], subscribers := [0] }

/-- Witness for C7 at a concrete one-message transcript. -/
theorem C7_witness :
    (∃ existing ∈ w7st.messages, existing.id = w7dup.id) ∧
    (w7st.addMessage w7dup = (w7st, []) ∧ w7st.addToolMessage w7dup = (w7st, [])) :=
  ⟨by decide, C7_duplicate_add_noop w7st w7dup (by decide)⟩

/-! ### Claim C10 -/

/-- C10: subscribe registers the callback and synchronously invokes it
exactly once with the snapshot of the state at subscription time; the
transcript itself is left untouched. -/
theorem C10_subscribe_immediate (st : ChatState) (fid : Nat) :
    (st.subscribe fid).snd = [(fid, { threadId := st.threadId, messages := st.messages })] ∧
    (st.subscribe fid).fst.threadId = st.threadId ∧
    (st.subscribe fid).fst.messages = st.messages ∧
    (st.subscribe fid).fst.subscribers = st.subscribers ++ [fid] :=
  ⟨rfl, rfl, rfl, rfl⟩

/-! ### Claim C2 -/

/-- C2 (amended): within one read chunk, a line whose payload is
`[DONE]` stops processing of the remaining lines of that chunk — they
produce neither stream events nor errors, and the `[DONE]` line itself
produces no error. (Processing resumes with the next chunk; see the
counterexample.) -/
theorem C2_done_stops_current_chunk (parse : String → Except String RawEvent)
    (l1 l2 : List String) (d : String)
    (hd : jsStartsWith d "data: " = true)
    (hdone : jsTrim (jsSlice d 6) = "[DONE]") :
    processChunkLines parse (l1 ++ d :: l2) = processChunkLines parse l1 := by
  induction l1 with
  | nil => simp [processChunkLines, hd, hdone]
  | cons x xs ih =>
    simp only [List.cons_append, processChunkLines]
    have hcast : xs.append (d :: l2) = xs ++ d :: l2 := rfl
    rw [hcast, ih]

def tokRaw : RawEvent := { type := "assistant_token", message_id := some "m1", content := some "x" }

/-- A concrete stand-in for JSON.parse: the payload TOK1 parses to an
assistant_token wire event, everything else raises a SyntaxError. -/
def parseTok : String → Except String RawEvent := fun s =>
  if s == "TOK1" then Except.ok tokRaw else Except.error "SyntaxError"

/-- C2 counterexample: a `data: ` line arriving in a chunk after the
chunk that carried `[DONE]` still produces a stream event — the decoder
does not stop processing the stream at `[DONE]`, contradicting the
claim for lines in later chunks. -/
theorem C2_counterexample :
    processStream parseTok
        [ReadResult.chunk "data: [DONE]\n", ReadResult.chunk "data: TOK1\n"] ""
      = ([StreamEvent.assistant_token "m1" "x"], []) ∧
    (processStream parseTok
        [ReadResult.chunk "data: [DONE]\n", ReadResult.chunk "data: TOK1\n"] "").fst ≠ [] := by
  exact ⟨by decide, by decide⟩

/-- Witness for C2 at a concrete chunk: a parseable line, then [DONE],
then two more lines that are dropped. -/
theorem C2_witness :
    (jsStartsWith "data: [DONE]" "data: " = true) ∧
    (jsTrim (jsSlice "data: [DONE]" 6) = "[DONE]") ∧
    processChunkLines parseTok (["data: TOK1"] ++ "data: [DONE]" :: ["data: TOK1", "junk"])
      = processChunkLines parseTok ["data: TOK1"] :=
  ⟨by decide, by decide,
    C2_done_stops_current_chunk parseTok ["data: TOK1"] ["data: TOK1", "junk"]
      "data: [DONE]" (by decide) (by decide)⟩

/-! ### Claim C9 -/

theorem lookup_setToolCount (counts : List (String × Nat)) (name t : String) (v : Nat) :
    lookupToolCount (setToolCount counts name v) t
      = if name == t then v else lookupToolCount counts t := by
  induction counts with
  | nil =>
    by_cases h : name = t
    · simp [setToolCount, lookupToolCount, List.find?, h]
    · have hb : (name == t) = false := by simp [h]
      simp [setToolCount, lookupToolCount, List.find?, hb]
  | cons p ps ih =>
    by_cases h1 : p.fst = name
    · have hb1 : (p.fst == name) = true := by simp [h1]
      by_cases h2 : name = t
      · have hb2 : (name == t) = true := by simp [h2]
        simp [setToolCount, lookupToolCount, List.find?, hb1, hb2]
      · have hb2 : (name == t) = false := by simp [h2]
        have hpt : (p.fst == t) = false := by
          have : p.fst ≠ t := fun hh => h2 (h1 ▸ hh)
          simp [this]
        simp [setToolCount, lookupToolCount, List.find?, hb1, hb2, hpt]
    · have hb1 : (p.fst == name) = false := by simp [h1]
      by_cases h2 : p.fst = t
      · have hnt : name ≠ t := fun hh => h1 (h2.trans hh.symm)
        have hb2 : (p.fst == t) = true := by simp [h2]
        have hbnt : (name == t) = false := by simp [hnt]
        simp [setToolCount, lookupToolCount, List.find?, hb1, hb2, hbnt]
      · have hb2 : (p.fst == t) = false := by simp [h2]
        simp only [lookupToolCount, List.find?] at ih ⊢
        simp [setToolCount, hb1, hb2, ih]

theorem counts_applyOp (c : ChatController) (op : Op) :
    (applyOp c op).toolInstanceCounts
      = match op with
        | Op.ev (StreamEvent.tool_start _ n _) =>
          setToolCount c.toolInstanceCounts n (lookupToolCount c.toolInstanceCounts n + 1)
        | _ => c.toolInstanceCounts := by
  cases op with
  | ev e =>
    cases e <;>
      simp only [applyOp, ChatController.reduce, ChatController.assignToolInstance] <;>
      (repeat' split) <;> rfl
  | transportError m =>
    simp only [applyOp, ChatController.handleError] <;> (repeat' split) <;> rfl
  | send t => simp only [applyOp, ChatController.send] <;> (repeat' split) <;> rfl
  | approve id lvl err =>
    simp only [applyOp, ChatController.approveToolCall] <;> (repeat' split) <;> rfl
  | deny id err =>
    simp only [applyOp, ChatController.denyToolCall] <;> (repeat' split) <;> rfl
  | batch ds err =>
    simp only [applyOp, ChatController.submitBatchApproval] <;> (repeat' split) <;> rfl
  | stop => simp only [applyOp, ChatController.stop] <;> (repeat' split) <;> rfl
  | regenerateFrom id err =>
    simp only [applyOp, ChatController.regenerate] <;> (repeat' split) <;> rfl
  | cancel => rfl
  | newThread id => rfl
  | clearChat => rfl

theorem countToolStarts_cons (t : String) (op : Op) (ops : List Op) :
    countToolStarts t (op :: ops) = countToolStarts t [op] + countToolStarts t ops := by
  cases op with
  | ev e => cases e <;> simp [countToolStarts]
  | transportError m => simp [countToolStarts]
  | send x => simp [countToolStarts]
  | approve a b c => simp [countToolStarts]
  | deny a b => simp [countToolStarts]
  | batch a b => simp [countToolStarts]
  | stop => simp [countToolStarts]
  | regenerateFrom a b => simp [countToolStarts]
  | cancel => simp [countToolStarts]
  | newThread a => simp [countToolStarts]
  | clearChat => simp [countToolStarts]

theorem lookup_applyOp (c : ChatController) (op : Op) (t : String) :
    lookupToolCount (applyOp c op).toolInstanceCounts t
      = lookupToolCount c.toolInstanceCounts t + countToolStarts t [op] := by
  rw [counts_applyOp]
  cases op with
  | ev e =>
    cases e with
    | tool_start id n input =>
      rw [lookup_setToolCount]
      by_cases h : n = t <;> simp [countToolStarts, h]
    | _ => simp [countToolStarts]
  | transportError m => simp [countToolStarts]
  | send x => simp [countToolStarts]
  | approve a b c => simp [countToolStarts]
  | deny a b => simp [countToolStarts]
  | batch a b => simp [countToolStarts]
  | stop => simp [countToolStarts]
  | regenerateFrom a b => simp [countToolStarts]
  | cancel => simp [countToolStarts]
  | newThread a => simp [countToolStarts]
  | clearChat => simp [countToolStarts]

/-- C9: the per-toolName instance counter is monotonic over any
operation sequence — its value after the sequence is its value before
plus the number of tool_start events for that toolName (so no
operation, including switching to a new thread, resets it), and the
instance number assigned at the next tool_start for toolName t after a
prefix pre is the number of earlier tool_starts for t plus one (so the
n-th tool_start for a toolName is assigned n, starting at 1). -/
theorem C9_instance_counter_monotonic :
    (∀ (ops : List Op) (c : ChatController) (t : String),
      lookupToolCount (applyOps c ops).toolInstanceCounts t
        = lookupToolCount c.toolInstanceCounts t + countToolStarts t ops) ∧
    (∀ (pre : List Op) (c : ChatController) (t : String),
      ((applyOps c pre).assignToolInstance t).snd
        = lookupToolCount c.toolInstanceCounts t + countToolStarts t pre + 1) := by
  have main : ∀ (ops : List Op) (c : ChatController) (t : String),
      lookupToolCount (applyOps c ops).toolInstanceCounts t
        = lookupToolCount c.toolInstanceCounts t + countToolStarts t ops := by
    intro ops
    induction ops with
    | nil => intro c t; simp [applyOps, countToolStarts]
    | cons op rest ih =>
      intro c t
      show lookupToolCount (applyOps (applyOp c op) rest).toolInstanceCounts t = _
      rw [ih, lookup_applyOp, countToolStarts_cons t op rest]
      omega
  refine ⟨main, fun pre c t => ?_⟩
  show lookupToolCount (applyOps c pre).toolInstanceCounts t + 1 = _
  rw [main]

/-! ### Claim C8 -/

/-- C8: syncUserMessage is idempotent — when the backend id is new and a
pending message with the correlation id exists, the first call resolves
it in place (id replaced, isPending cleared) and a second identical call
leaves the state unchanged, emits nothing and adds no message; and when
no matching pending message (and no message with the backend id) exists,
the call drops the event without fabricating a message. -/
theorem syncUserMessage_of_id_present (st : ChatState) (backendId correlationId : String)
    (h : (st.messages.any fun msg => msg.id == backendId) = true) :
    st.syncUserMessage backendId correlationId = (st, []) := by
  simp [ChatState.syncUserMessage, h]

theorem C8_sync_idempotent :
    (∀ (st : ChatState) (backendId correlationId : String) (l r : List Message) (P : Message),
      (∀ msg ∈ st.messages, msg.id ≠ backendId) →
      st.messages = l ++ P :: r →
      (∀ x ∈ l, ChatState.isPendingWithCorrelation correlationId x = false) →
      ChatState.isPendingWithCorrelation correlationId P = true →
      (st.syncUserMessage backendId correlationId).fst.messages
          = l ++ { P with id := backendId, isPending := some false } :: r ∧
      (st.syncUserMessage backendId correlationId).fst.syncUserMessage backendId correlationId
          = ((st.syncUserMessage backendId correlationId).fst, [])) ∧
    (∀ (st : ChatState) (backendId correlationId : String),
      (∀ msg ∈ st.messages, msg.id ≠ backendId) →
      (∀ msg ∈ st.messages, ChatState.isPendingWithCorrelation correlationId msg = false) →
      st.syncUserMessage backendId correlationId = (st, [])) := by
  constructor
  · intro st backendId correlationId l r P hid hsplit hl hP
    have hany1 : (st.messages.any fun msg => msg.id == backendId) = false := by
      rw [List.any_eq_false]
      intro x hx
      simpa using hid x hx
    have hPmem : P ∈ st.messages := by
      rw [hsplit]
      exact List.mem_append_right _ (List.mem_cons_self _ _)
    have hany2 : st.messages.any (ChatState.isPendingWithCorrelation correlationId) = true :=
      any_of_mem_true _ _ P hPmem hP
    have hupd : updateFirst (ChatState.isPendingWithCorrelation correlationId)
        (fun m => { m with id := backendId, isPending := some false }) st.messages
        = l ++ ({ P with id := backendId, isPending := some false }) :: r := by
      rw [hsplit]
      exact updateFirst_append _ _ _ _ _ hl hP
    have hfst : (st.syncUserMessage backendId correlationId).fst
        = { st with messages := l ++ ({ P with id := backendId, isPending := some false }) :: r } := by
      simp [ChatState.syncUserMessage, hany1, hany2, hupd]
    refine ⟨by rw [hfst], ?_⟩
    have hany3 : ((st.syncUserMessage backendId correlationId).fst.messages.any
        fun msg => msg.id == backendId) = true := by
      rw [hfst]
      exact any_of_mem_true _ _ ({ P with id := backendId, isPending := some false })
        (List.mem_append_right _ (List.mem_cons_self _ _)) (by simp)
    exact syncUserMessage_of_id_present _ _ _ hany3
  · intro st backendId correlationId hid hpend
    have hany1 : (st.messages.any fun msg => msg.id == backendId) = false := by
      rw [List.any_eq_false]
      intro x hx
      simpa using hid x hx
    have hany2 : st.messages.any (ChatState.isPendingWithCorrelation correlationId) = false := by
      rw [List.any_eq_false]
      intro x hx
      simp [hpend x hx]
    simp [ChatState.syncUserMessage, hany1, hany2]

def w8pending : Message :=
  { id := "c1", correlationId := some "c1", role := Role.user, message := "hello",
    isPending := some true }

def w8st : ChatState := { threadId := "t", messages := [w8pending], subscribers := [0] }

def w8empty : ChatState := { threadId := "t", messages := [], subscribers := [0] }

/-- Witness for C8: the resolve-then-duplicate scenario at a concrete
one-message transcript, and the drop case at an empty transcript. -/
theorem C8_witness :
    ((∀ msg ∈ w8st.messages, msg.id ≠ "b1") ∧
      (∀ x ∈ ([] : List Message), ChatState.isPendingWithCorrelation "c1" x = false) ∧
      ChatState.isPendingWithCorrelation "c1" w8pending = true ∧
      ((w8st.syncUserMessage "b1" "c1").fst.messages
          = [] ++ { w8pending with id := "b1", isPending := some false } :: [] ∧
        (w8st.syncUserMessage "b1" "c1").fst.syncUserMessage "b1" "c1"
          = ((w8st.syncUserMessage "b1" "c1").fst, []))) ∧
    ((∀ msg ∈ w8empty.messages, msg.id ≠ "b1") ∧
      (∀ msg ∈ w8empty.messages, ChatState.isPendingWithCorrelation "c1" msg = false) ∧
      w8empty.syncUserMessage "b1" "c1" = (w8empty, [])) :=
  ⟨⟨by decide, by decide, by decide,
      C8_sync_idempotent.1 w8st "b1" "c1" [] [] w8pending (by decide) (by decide)
        (by decide) (by decide)⟩,
    ⟨by decide, by decide, C8_sync_idempotent.2 w8empty "b1" "c1" (by decide) (by decide)⟩⟩

/-! ### Claim C1 -/

/-- The assistant message created by assistant_start with text
accumulated so far. -/
def assistantMsg (messageId text : String) (ts : Nat) : Message :=
  { id := messageId, role := Role.assistant, message := text, timestamp := ts,
    isStreaming := some true }

theorem tokens_fold_concat (m : String) (ts : Nat) :
    ∀ (tokens : List String) (c : ChatController) (l : List Message) (acc : String),
      (∀ x ∈ l, (x.id == m) = false) →
      c.chat.messages = l ++ [assistantMsg m acc ts] →
      (applyOps c (tokens.map (fun t => Op.ev (StreamEvent.assistant_token m t)))).chat.messages
        = l ++ [assistantMsg m (acc ++ concatTokens tokens) ts] := by
  intro tokens
  induction tokens with
  | nil =>
    intro c l acc hl hmsg
    simpa [applyOps, concatTokens] using hmsg
  | cons t rest ih =>
    intro c l acc hl hmsg
    have hany : (c.chat.messages.any fun msg => msg.id == m) = true := by
      rw [hmsg]
      exact any_of_mem_true _ _ (assistantMsg m acc ts)
        (List.mem_append_right _ (List.mem_singleton.mpr rfl)) (by simp [assistantMsg])
    have hupd : updateFirst (fun msg => msg.id == m)
        (fun mm => { mm with message := mm.message ++ t }) c.chat.messages
        = l ++ [assistantMsg m (acc ++ t) ts] := by
      rw [hmsg, updateFirst_append _ _ l [] _ hl (by simp [assistantMsg])]
      rfl
    have hstep : (applyOp c (Op.ev (StreamEvent.assistant_token m t))).chat.messages
        = l ++ [assistantMsg m (acc ++ t) ts] := by
      simp [applyOp, ChatController.reduce, ChatState.appendToMessage, hany, hupd]
    have := ih (applyOp c (Op.ev (StreamEvent.assistant_token m t))) l (acc ++ t) hl hstep
    simpa [applyOps, concatTokens, String.append_assoc] using this

/-- C1: for an assistant message freshly created by assistant_start
(initial text empty, isStreaming true), reducing any ordered sequence of
assistant_token events targeting its id leaves the message with text
equal to the ordered concatenation of the token payloads. -/
theorem C1_assistant_tokens_concatenate (c : ChatController) (m : String) (ts : Nat)
    (tokens : List String) (h : ∀ msg ∈ c.chat.messages, msg.id ≠ m) :
    (applyOps ((c.reduce (StreamEvent.assistant_start m ts)).fst)
        (tokens.map (fun t => Op.ev (StreamEvent.assistant_token m t)))).chat.getMessage m
      = some (assistantMsg m (concatTokens tokens) ts) := by
  have hfl : ∀ x ∈ c.chat.messages.filter (fun msg => !(msg.isLoading == some true)),
      (x.id == m) = false := by
    intro x hx
    have := h x (List.mem_of_mem_filter hx)
    simp [this]
  have hany : ((c.chat.messages.filter (fun msg => !(msg.isLoading == some true))).any
      fun msg => msg.id == m) = false := by
    rw [List.any_eq_false]
    intro x hx
    simp [hfl x hx]
  have hstart : ((c.reduce (StreamEvent.assistant_start m ts)).fst).chat.messages
      = c.chat.messages.filter (fun msg => !(msg.isLoading == some true))
        ++ [assistantMsg m "" ts] := by
    simp [ChatController.reduce, ChatState.removeLoadingMessages, ChatState.addMessage, hany,
      assistantMsg]
  have hfold := tokens_fold_concat m ts tokens _ _ "" hfl hstart
  show (applyOps _ _).chat.messages.find? (fun msg => msg.id == m) = _
  rw [hfold]
  have : "" ++ concatTokens tokens = concatTokens tokens := rfl
  rw [this, find?_append_first _ _ _ _ hfl (by simp [assistantMsg])]

def w1c : ChatController := { chat := { threadId := "t" } }

/-! ### Claim C3 -/

/-- The optimistic pending user message inserted by send. -/
def pendingUserMsg (c : ChatController) (text : String) : Message :=
  { id := uuidv4 c.nextUuid, correlationId := some (uuidv4 c.nextUuid), role := Role.user,
    message := text, timestamp := c.now, isPending := some true }

/-- The loading placeholder inserted by send. -/
def loadingMsgOf (c : ChatController) : Message :=
  { id := uuidv4 (c.nextUuid + 1), role := Role.assistant, message := "", timestamp := c.now,
    isLoading := some true }

theorem loadingCount_removeLoadingMessages (st : ChatState) :
    loadingCount (st.removeLoadingMessages).fst = 0 := by
  simp only [ChatState.removeLoadingMessages, loadingCount]
  rw [List.countP_eq_zero]
  intro a ha
  have := List.of_mem_filter ha
  simp_all

theorem loadingCount_addMessage (st : ChatState) (m : Message) (h : m.isLoading = none) :
    loadingCount (st.addMessage m).fst = loadingCount st := by
  by_cases hc : (st.messages.any fun existing => existing.id == m.id) = true
  · simp [ChatState.addMessage, hc]
  · simp only [Bool.not_eq_true] at hc
    simp [ChatState.addMessage, hc, loadingCount, List.countP_append, List.countP_cons, h]

theorem loadingCount_addToolMessage (st : ChatState) (m : Message) (h : m.isLoading = none) :
    loadingCount (st.addToolMessage m).fst = loadingCount st := by
  by_cases hc : (st.messages.any fun existing => existing.id == m.id) = true
  · simp [ChatState.addToolMessage, hc]
  · simp only [Bool.not_eq_true] at hc
    simp [ChatState.addToolMessage, hc, loadingCount, List.countP_append, List.countP_cons, h]

theorem loadingCount_removeApprovalRequest (st : ChatState) (toolCallId : String) :
    loadingCount (st.removeApprovalRequest toolCallId).fst = loadingCount st := by
  simp only [ChatState.removeApprovalRequest, loadingCount]
  apply updateFirst_countP
  intro x
  simp only [ChatState.removeApprovalUpdate]
  split <;> rfl

/-- C3 (amended): send inserts the optimistic pending user message and
the loading placeholder; the loading placeholder is removed by
assistant_start and by the transport error callback (the path through
which a user cancellation reaches the controller), but a tool_start
event does not remove it — the number of loading placeholders is
unchanged by tool_start. -/
theorem C3_loading_placeholder_lifecycle :
    (∀ (c : ChatController) (text : String),
      (c.chat.messages.any fun msg => msg.id == uuidv4 c.nextUuid) = false →
      (c.chat.messages.any fun msg => msg.id == uuidv4 (c.nextUuid + 1)) = false →
      uuidv4 c.nextUuid ≠ uuidv4 (c.nextUuid + 1) →
      (c.send text).fst.chat.messages
          = c.chat.messages ++ [pendingUserMsg c text, loadingMsgOf c] ∧
      (pendingUserMsg c text).isPending = some true ∧
      (loadingMsgOf c).isLoading = some true) ∧
    (∀ (c : ChatController) (m : String) (ts : Nat),
      loadingCount ((c.reduce (StreamEvent.assistant_start m ts)).fst).chat = 0) ∧
    (∀ (c : ChatController) (e : String),
      loadingCount ((c.handleError e).fst).chat = 0) ∧
    (∀ (c : ChatController) (tc tn ti : String),
      loadingCount ((c.reduce (StreamEvent.tool_start tc tn ti)).fst).chat
        = loadingCount c.chat) := by
  refine ⟨?_, ?_, ?_, ?_⟩
  · intro c text h1 h2 hne
    have hne2 : (uuidv4 c.nextUuid == uuidv4 (c.nextUuid + 1)) = false := by simp [hne]
    refine ⟨?_, rfl, rfl⟩
    simp only [ChatController.send, ChatState.addMessage]
    simp [h1, h2, List.any_append, hne2, pendingUserMsg, loadingMsgOf]
  · intro c m ts
    simp only [ChatController.reduce]
    have h0 : loadingCount (c.chat.removeLoadingMessages).fst = 0 :=
      loadingCount_removeLoadingMessages c.chat
    have := loadingCount_addMessage (c.chat.removeLoadingMessages).fst
      { id := m, role := Role.assistant, message := "", timestamp := ts,
        isStreaming := some true } rfl
    simp_all
  · intro c e
    simp only [ChatController.handleError]
    have h0 : loadingCount (c.chat.removeLoadingMessages).fst = 0 :=
      loadingCount_removeLoadingMessages c.chat
    by_cases hb : stringIncludes e "BodyStreamBuffer was aborted" = true
    · simp [hb, h0]
    · simp only [Bool.not_eq_true] at hb
      have := loadingCount_addMessage (c.chat.removeLoadingMessages).fst
        { id := uuidv4 c.nextUuid, role := Role.error, message := "", timestamp := c.now,
          error := some e } rfl
      simp_all
  · intro c tc tn ti
    simp only [ChatController.reduce, ChatController.assignToolInstance]
    have h1 : loadingCount (c.chat.removeApprovalRequest tc).fst = loadingCount c.chat :=
      loadingCount_removeApprovalRequest c.chat tc
    have := loadingCount_addToolMessage (c.chat.removeApprovalRequest tc).fst
      { id := tc, role := Role.tool, message := "", timestamp := c.now, toolCallId := some tc,
        toolName := some tn, toolInput := some ti, isStreaming := some true,
        instanceNumber := some (lookupToolCount c.toolInstanceCounts tn + 1) } rfl
    simp_all

/-! ### Pointed-state lemmas: a transcript of the form l ++ A :: r where
A is the first tool message for a given toolCallId -/

theorem getToolMessageByCallId_pointed (st : ChatState) (t1 : String) (l r : List Message)
    (A : Message) (hmsgs : st.messages = l ++ A :: r)
    (hl : ∀ x ∈ l, ChatState.isToolWithCallId t1 x = false)
    (hA : ChatState.isToolWithCallId t1 A = true) :
    st.getToolMessageByCallId t1 = some A := by
  simp only [ChatState.getToolMessageByCallId]
  rw [hmsgs]
  exact find?_append_first _ _ _ _ hl hA

theorem updateApprovalRequest_pointed (st : ChatState) (t1 : String) (approved : Bool)
    (l r : List Message) (A : Message) (hmsgs : st.messages = l ++ A :: r)
    (hl : ∀ x ∈ l, ChatState.isToolWithCallId t1 x = false)
    (hA : ChatState.isToolWithCallId t1 A = true) :
    (st.updateApprovalRequest t1 approved).fst.messages
      = l ++ ({ A with
          approvalStatus := some (if approved then ApprovalStatus.approved
            else ApprovalStatus.denied) }) :: r := by
  simp only [ChatState.updateApprovalRequest]
  rw [hmsgs]
  exact updateFirst_append _ _ _ _ _ hl hA

theorem updateToolMessage_pointed (st : ChatState) (t1 : String) (upd : Message → Message)
    (l r : List Message) (A : Message) (hmsgs : st.messages = l ++ A :: r)
    (hl : ∀ x ∈ l, ChatState.isToolWithCallId t1 x = false)
    (hA : ChatState.isToolWithCallId t1 A = true) :
    (st.updateToolMessage t1 upd).fst.messages = l ++ upd A :: r := by
  have hany : st.messages.any (ChatState.isToolWithCallId t1) = true := by
    rw [hmsgs]
    exact any_of_mem_true _ _ A (List.mem_append_right _ (List.mem_cons_self _ _)) hA
  simp only [ChatState.updateToolMessage, hany, if_true]
  rw [hmsgs]
  exact updateFirst_append _ _ _ _ _ hl hA

theorem removeApprovalRequest_pointed (st : ChatState) (t1 : String)
    (l r : List Message) (A : Message) (hmsgs : st.messages = l ++ A :: r)
    (hl : ∀ x ∈ l, ChatState.isToolWithCallId t1 x = false)
    (hA : ChatState.isToolWithCallId t1 A = true) :
    (st.removeApprovalRequest t1).fst.messages
      = l ++ ChatState.removeApprovalUpdate A :: r := by
  simp only [ChatState.removeApprovalRequest]
  rw [hmsgs]
  exact updateFirst_append _ _ _ _ _ hl hA

theorem addToolMessage_dup (st : ChatState) (m : Message)
    (h : (st.messages.any fun existing => existing.id == m.id) = true) :
    st.addToolMessage m = (st, []) := by
  simp [ChatState.addToolMessage, h]

/-- The tool message created by `addApprovalRequest` when no tool
message for the toolCallId exists yet. -/
def apReqMsg (toolCallId toolName toolInput approvalMessage riskLevel : String)
    (ar : List String) (rev : Bool) (imp : String) (simc : Nat) (levels : List String)
    (defL : String) (now : Nat) : Message :=
  { id := toolCallId, role := Role.tool, message := "", timestamp := now,
    toolCallId := some toolCallId, toolName := some toolName, toolInput := some toolInput,
    isStreaming := some false, waitingForApproval := some true,
    approvalMessage := some approvalMessage, riskLevel := some riskLevel,
    affectedResources := some ar, reversible := some rev, estimatedImpact := some imp,
    similarOperationsCount := some simc, availableApprovalLevels := some levels,
    defaultApprovalLevel := some defL }

theorem reduce_approval_request_fresh (c : ChatController)
    (t1 tn ti apMsg risk : String) (ar : List String) (rev : Bool) (imp : String)
    (simc : Nat) (levels : List String) (defL : String)
    (hid : ∀ msg ∈ c.chat.messages, (msg.id == t1) = false)
    (htool : ∀ msg ∈ c.chat.messages, ChatState.isToolWithCallId t1 msg = false) :
    ((c.reduce (StreamEvent.approval_request t1 tn ti apMsg risk ar rev imp simc levels
        defL)).fst).chat.messages
      = c.chat.messages ++ [apReqMsg t1 tn ti apMsg risk ar rev imp simc levels defL c.now] := by
  have hfind : c.chat.getToolMessageByCallId t1 = none := by
    simp only [ChatState.getToolMessageByCallId]
    rw [List.find?_eq_none]
    intro x hx
    simp [htool x hx]
  have hany : (c.chat.messages.any fun existing => existing.id == t1) = false := by
    rw [List.any_eq_false]
    intro x hx
    simp [hid x hx]
  simp only [ChatController.reduce, ChatState.addApprovalRequest, hfind,
    ChatState.addToolMessage]
  simp [hany, apReqMsg]

theorem reduce_tool_start_pointed (c : ChatController) (t1 tn ti : String)
    (l r : List Message) (A : Message) (hmsgs : c.chat.messages = l ++ A :: r)
    (hl : ∀ x ∈ l, ChatState.isToolWithCallId t1 x = false)
    (hA : ChatState.isToolWithCallId t1 A = true)
    (hidA : A.id = t1) :
    ((c.reduce (StreamEvent.tool_start t1 tn ti)).fst).chat.messages
      = l ++ ChatState.removeApprovalUpdate A :: r := by
  have s1 := removeApprovalRequest_pointed c.chat t1 l r A hmsgs hl hA
  have hmem : ChatState.removeApprovalUpdate A ∈ (c.chat.removeApprovalRequest t1).fst.messages := by
    rw [s1]
    exact List.mem_append_right _ (List.mem_cons_self _ _)
  have hidA2 : (ChatState.removeApprovalUpdate A).id = t1 := by
    simp only [ChatState.removeApprovalUpdate]
    split <;> exact hidA
  have hanyDup : ((c.chat.removeApprovalRequest t1).fst.messages.any
      fun existing => existing.id == t1) = true :=
    any_of_mem_true _ _ _ hmem (by simp [hidA2])
  simp only [ChatController.reduce, ChatController.assignToolInstance,
    ChatState.addToolMessage]
  rw [hanyDup, if_pos rfl]
  exact s1

/-! ### Claim C4 -/

/-- C4: reducing approval_request for a fresh tool call t1 and then
tool_start for t1 updates the existing entry keyed by toolCallId (no
second message is created — the transcript length matches the state
after approval_request); waitingForApproval flips to false, an
approvedStatus set to approved in between is preserved, and isStreaming
becomes true exactly when the status had been set to approved. -/
theorem C4_approval_then_tool_start :
    ∀ (c : ChatController) (t1 tn ti apMsg risk : String) (ar : List String) (rev : Bool)
      (imp : String) (simc : Nat) (levels : List String) (defL : String),
      (∀ msg ∈ c.chat.messages, (msg.id == t1) = false) →
      (∀ msg ∈ c.chat.messages, ChatState.isToolWithCallId t1 msg = false) →
      (∃ tm, (((((c.reduce (StreamEvent.approval_request t1 tn ti apMsg risk ar rev imp simc
              levels defL)).fst).approveToolCall t1 none none).fst).reduce
              (StreamEvent.tool_start t1 tn ti)).fst.chat.getToolMessageByCallId t1 = some tm ∧
        tm.waitingForApproval = some false ∧ tm.approvalStatus = some ApprovalStatus.approved ∧
        tm.isStreaming = some true) ∧
      (∃ tm, (((c.reduce (StreamEvent.approval_request t1 tn ti apMsg risk ar rev imp simc
              levels defL)).fst).reduce
              (StreamEvent.tool_start t1 tn ti)).fst.chat.getToolMessageByCallId t1 = some tm ∧
        tm.waitingForApproval = some false ∧ tm.approvalStatus = none ∧
        tm.isStreaming = some false) ∧
      (((((c.reduce (StreamEvent.approval_request t1 tn ti apMsg risk ar rev imp simc levels
            defL)).fst).approveToolCall t1 none none).fst).reduce
            (StreamEvent.tool_start t1 tn ti)).fst.chat.messages.length
        = ((c.reduce (StreamEvent.approval_request t1 tn ti apMsg risk ar rev imp simc levels
            defL)).fst).chat.messages.length ∧
      (((c.reduce (StreamEvent.approval_request t1 tn ti apMsg risk ar rev imp simc levels
            defL)).fst).reduce (StreamEvent.tool_start t1 tn ti)).fst.chat.messages.length
        = ((c.reduce (StreamEvent.approval_request t1 tn ti apMsg risk ar rev imp simc levels
            defL)).fst).chat.messages.length := by
  intro c t1 tn ti apMsg risk ar rev imp simc levels defL hid htool
  set c1 := (c.reduce (StreamEvent.approval_request t1 tn ti apMsg risk ar rev imp simc levels
    defL)).fst with hc1
  set A0 := apReqMsg t1 tn ti apMsg risk ar rev imp simc levels defL c.now with hA0def
  have h1 : c1.chat.messages = c.chat.messages ++ A0 :: [] :=
    reduce_approval_request_fresh c t1 tn ti apMsg risk ar rev imp simc levels defL hid htool
  have hA0 : ChatState.isToolWithCallId t1 A0 = true := by
    simp [hA0def, apReqMsg, ChatState.isToolWithCallId]
  -- the approved branch: approveToolCall with successful network call
  set lv1 : String := (jsOr none (jsOr ((c1.chat.getToolMessageByCallId t1).bind
    (fun mm => mm.defaultApprovalLevel)) (some "user"))).getD "user" with hlv1
  set A1 : Message := { A0 with approvalStatus := some ApprovalStatus.approved } with hA1def
  set A2 : Message := { A1 with approvalStatus := some ApprovalStatus.approved, approvalLevel := some lv1, waitingForApproval := some false } with hA2def
  have s1 := updateApprovalRequest_pointed c1.chat t1 true c.chat.messages [] A0 h1 htool hA0
  have s1A : (c1.chat.updateApprovalRequest t1 true).fst.messages
      = c.chat.messages ++ A1 :: [] := s1
  have s2 := updateToolMessage_pointed (c1.chat.updateApprovalRequest t1 true).fst t1
    (fun m => { m with approvalStatus := some ApprovalStatus.approved, approvalLevel := some lv1, waitingForApproval := some false })
    c.chat.messages [] A1 s1A htool hA0
  have h2 : ((c1.approveToolCall t1 none none).fst).chat.messages
      = c.chat.messages ++ A2 :: [] := by
    simp only [ChatController.approveToolCall]
    exact s2
  have h3 := reduce_tool_start_pointed ((c1.approveToolCall t1 none none).fst) t1 tn ti
    c.chat.messages [] A2 h2 htool hA0 rfl
  have h3n := reduce_tool_start_pointed c1 t1 tn ti c.chat.messages [] A0 h1 htool hA0 rfl
  refine ⟨⟨_, getToolMessageByCallId_pointed _ t1 _ _ _ h3 htool hA0, rfl, rfl, rfl⟩,
    ⟨_, getToolMessageByCallId_pointed _ t1 _ _ _ h3n htool hA0, rfl, rfl, rfl⟩, ?_, ?_⟩
  · rw [h3, h1]
    simp
  · rw [h3n, h1]
    simp

def w4c : ChatController := { chat := { threadId := "t" } }

/-- Witness for C4 at a fresh controller and concrete approval
metadata. -/
theorem C4_witness :
    (∀ msg ∈ w4c.chat.messages, (msg.id == "t1") = false) ∧
    (∀ msg ∈ w4c.chat.messages, ChatState.isToolWithCallId "t1" msg = false) ∧
    ((∃ tm, (((((w4c.reduce (StreamEvent.approval_request "t1" "lookup" "input" "ok" "high" []
            true "" 0 ["user"] "user")).fst).approveToolCall "t1" none none).fst).reduce
            (StreamEvent.tool_start "t1" "lookup" "input")).fst.chat.getToolMessageByCallId "t1"
          = some tm ∧
        tm.waitingForApproval = some false ∧ tm.approvalStatus = some ApprovalStatus.approved ∧
        tm.isStreaming = some true) ∧
      (∃ tm, (((w4c.reduce (StreamEvent.approval_request "t1" "lookup" "input" "ok" "high" []
            true "" 0 ["user"] "user")).fst).reduce
            (StreamEvent.tool_start "t1" "lookup" "input")).fst.chat.getToolMessageByCallId "t1"
          = some tm ∧
        tm.waitingForApproval = some false ∧ tm.approvalStatus = none ∧
        tm.isStreaming = some false) ∧
      (((((w4c.reduce (StreamEvent.approval_request "t1" "lookup" "input" "ok" "high" [] true ""
            0 ["user"] "user")).fst).approveToolCall "t1" none none).fst).reduce
            (StreamEvent.tool_start "t1" "lookup" "input")).fst.chat.messages.length
        = ((w4c.reduce (StreamEvent.approval_request "t1" "lookup" "input" "ok" "high" [] true ""
            0 ["user"] "user")).fst).chat.messages.length ∧
      (((w4c.reduce (StreamEvent.approval_request "t1" "lookup" "input" "ok" "high" [] true "" 0
            ["user"] "user")).fst).reduce
            (StreamEvent.tool_start "t1" "lookup" "input")).fst.chat.messages.length
        = ((w4c.reduce (StreamEvent.approval_request "t1" "lookup" "input" "ok" "high" [] true ""
            0 ["user"] "user")).fst).chat.messages.length) :=
  ⟨by decide, by decide,
    C4_approval_then_tool_start w4c "t1" "lookup" "input" "ok" "high" [] true "" 0 ["user"]
      "user" (by decide) (by decide)⟩

/-! ### Claim C5 -/

/-- C5: approveToolCall applies the optimistic update (approved,
waitingForApproval cleared) and on transport success leaves it in
place; when the network call fails, the tool message is reverted to the
pre-approval waiting state (waitingForApproval true, approvalStatus
unset) with an error string attached; denyToolCall on network failure
keeps the denial and only attaches an error note. -/
theorem C5_approval_failure_paths :
    ∀ (c : ChatController) (t1 : String) (lvl : Option String) (e : String)
      (l r : List Message) (A : Message),
      c.chat.messages = l ++ A :: r →
      (∀ x ∈ l, ChatState.isToolWithCallId t1 x = false) →
      ChatState.isToolWithCallId t1 A = true →
      (∃ tm, ((c.approveToolCall t1 lvl none).fst).chat.getToolMessageByCallId t1 = some tm ∧
        tm.approvalStatus = some ApprovalStatus.approved ∧
        tm.waitingForApproval = some false) ∧
      (∃ tm, ((c.approveToolCall t1 lvl (some e)).fst).chat.getToolMessageByCallId t1 = some tm ∧
        tm.waitingForApproval = some true ∧ tm.approvalStatus = none ∧
        tm.approvalLevel = none ∧
        tm.error = some ("Failed to send approval: " ++ e)) ∧
      (∃ tm, ((c.denyToolCall t1 (some e)).fst).chat.getToolMessageByCallId t1 = some tm ∧
        tm.approvalStatus = some ApprovalStatus.denied ∧ tm.waitingForApproval = some false ∧
        tm.error = some ("Failed to send denial: " ++ e)) := by
  intro c t1 lvl e l r A hmsgs hl hA
  set lvA : String := (jsOr lvl (jsOr ((c.chat.getToolMessageByCallId t1).bind (fun mm => mm.defaultApprovalLevel)) (some "user"))).getD "user" with hlvA
  set B1 : Message := { A with approvalStatus := some ApprovalStatus.approved } with hB1
  set B2 : Message := { B1 with approvalStatus := some ApprovalStatus.approved, approvalLevel := some lvA, waitingForApproval := some false } with hB2
  set B3 : Message := { B2 with approvalStatus := none, approvalLevel := none, waitingForApproval := some true, error := some ("Failed to send approval: " ++ e) } with hB3
  have s1 := updateApprovalRequest_pointed c.chat t1 true l r A hmsgs hl hA
  have s1A : (c.chat.updateApprovalRequest t1 true).fst.messages = l ++ B1 :: r := s1
  have s2 := updateToolMessage_pointed (c.chat.updateApprovalRequest t1 true).fst t1
    (fun m => { m with approvalStatus := some ApprovalStatus.approved, approvalLevel := some lvA, waitingForApproval := some false })
    l r B1 s1A hl hA
  have s2A : ((c.chat.updateApprovalRequest t1 true).fst.updateToolMessage t1
      (fun m => { m with approvalStatus := some ApprovalStatus.approved, approvalLevel := some lvA, waitingForApproval := some false })).fst.messages
      = l ++ B2 :: r := s2
  have s3 := updateToolMessage_pointed ((c.chat.updateApprovalRequest t1 true).fst.updateToolMessage t1
      (fun m => { m with approvalStatus := some ApprovalStatus.approved, approvalLevel := some lvA, waitingForApproval := some false })).fst t1
    (fun m => { m with approvalStatus := none, approvalLevel := none, waitingForApproval := some true, error := some ("Failed to send approval: " ++ e) })
    l r B2 s2A hl hA
  have s3A : _ = l ++ B3 :: r := s3
  have hSucc : ((c.approveToolCall t1 lvl none).fst).chat.messages = l ++ B2 :: r := by
    simp only [ChatController.approveToolCall]
    exact s2A
  have hFail : ((c.approveToolCall t1 lvl (some e)).fst).chat.messages = l ++ B3 :: r := by
    simp only [ChatController.approveToolCall]
    exact s3A
  set D1 : Message := { A with approvalStatus := some ApprovalStatus.denied } with hD1
  set D2 : Message := { D1 with approvalStatus := some ApprovalStatus.denied, waitingForApproval := some false, isStreaming := some false, status := some ToolStatus.error, toolOutput := some (ToolOutput.str "Tool execution was denied by user") } with hD2
  set D3 : Message := { D2 with error := some ("Failed to send denial: " ++ e) } with hD3
  have d1 := updateApprovalRequest_pointed c.chat t1 false l r A hmsgs hl hA
  have d1A : (c.chat.updateApprovalRequest t1 false).fst.messages = l ++ D1 :: r := d1
  have d2 := updateToolMessage_pointed (c.chat.updateApprovalRequest t1 false).fst t1
    (fun m => { m with approvalStatus := some ApprovalStatus.denied, waitingForApproval := some false, isStreaming := some false, status := some ToolStatus.error, toolOutput := some (ToolOutput.str "Tool execution was denied by user") })
    l r D1 d1A hl hA
  have d2A : ((c.chat.updateApprovalRequest t1 false).fst.updateToolMessage t1
      (fun m => { m with approvalStatus := some ApprovalStatus.denied, waitingForApproval := some false, isStreaming := some false, status := some ToolStatus.error, toolOutput := some (ToolOutput.str "Tool execution was denied by user") })).fst.messages
      = l ++ D2 :: r := d2
  have d3 := updateToolMessage_pointed ((c.chat.updateApprovalRequest t1 false).fst.updateToolMessage t1
      (fun m => { m with approvalStatus := some ApprovalStatus.denied, waitingForApproval := some false, isStreaming := some false, status := some ToolStatus.error, toolOutput := some (ToolOutput.str "Tool execution was denied by user") })).fst t1
    (fun m => { m with error := some ("Failed to send denial: " ++ e) })
    l r D2 d2A hl hA
  have d3A : _ = l ++ D3 :: r := d3
  have hDeny : ((c.denyToolCall t1 (some e)).fst).chat.messages = l ++ D3 :: r := by
    simp only [ChatController.denyToolCall]
    exact d3A
  exact ⟨⟨B2, getToolMessageByCallId_pointed _ t1 l r B2 hSucc hl hA, rfl, rfl⟩,
    ⟨B3, getToolMessageByCallId_pointed _ t1 l r B3 hFail hl hA, rfl, rfl, rfl, rfl⟩,
    ⟨D3, getToolMessageByCallId_pointed _ t1 l r D3 hDeny hl hA, rfl, rfl, rfl⟩⟩

def w5tool : Message :=
  { id := "t1", role := Role.tool, message := "", toolCallId := some "t1",
    toolName := some "lookup", toolInput := some "input", isStreaming := some false,
    waitingForApproval := some true }

def w5c : ChatController := { chat := { threadId := "t", messages := [w5tool] } }

/-- Witness for C5 at a one-tool-message transcript with a concrete
network error. -/
theorem C5_witness :
    (w5c.chat.messages = [] ++ w5tool :: []) ∧
    (∀ x ∈ ([] : List Message), ChatState.isToolWithCallId "t1" x = false) ∧
    (ChatState.isToolWithCallId "t1" w5tool = true) ∧
    ((∃ tm, ((w5c.approveToolCall "t1" none none).fst).chat.getToolMessageByCallId "t1"
          = some tm ∧
        tm.approvalStatus = some ApprovalStatus.approved ∧
        tm.waitingForApproval = some false) ∧
      (∃ tm, ((w5c.approveToolCall "t1" none (some "timeout")).fst).chat.getToolMessageByCallId
          "t1" = some tm ∧
        tm.waitingForApproval = some true ∧ tm.approvalStatus = none ∧
        tm.approvalLevel = none ∧
        tm.error = some ("Failed to send approval: " ++ "timeout")) ∧
      (∃ tm, ((w5c.denyToolCall "t1" (some "timeout")).fst).chat.getToolMessageByCallId "t1"
          = some tm ∧
        tm.approvalStatus = some ApprovalStatus.denied ∧ tm.waitingForApproval = some false ∧
        tm.error = some ("Failed to send denial: " ++ "timeout"))) :=
  ⟨by decide, by decide, by decide,
    C5_approval_failure_paths w5c "t1" none "timeout" [] [] w5tool (by decide) (by decide)
      (by decide)⟩

/-! ### Claim C6 -/

/-- C6 (amended): a non-success HTTP response produces exactly one
synthetic error on the error callback, with the structured validation
message extracted for HTTP 422; an AbortError raised by the fetch
itself produces no error callback; but an abort that interrupts the
body read IS delivered to the error callback (its message is filtered
later in the controller layer), so user-initiated cancellation is only
callback-free on the fetch path. -/
theorem C6_error_callback_paths :
    (∀ (parse : String → Except String RawEvent) (tid : Option String) (r : FetchResponse),
      r.ok = false →
      (handleStreamingResponse parse tid (FetchOutcome.resp r)).snd
        = [computeErrorMessage r.status r.statusText r.json]) ∧
    (∀ (statusText m f : String) (d : ErrData),
      d.detail0 = some (m, f) →
      computeErrorMessage 422 statusText (some d)
        = "Validation error: " ++ m ++ " (" ++ f ++ ")") ∧
    (∀ (parse : String → Except String RawEvent) (tid : Option String) (msg : String),
      handleStreamingResponse parse tid
        (FetchOutcome.throws { name := "AbortError", message := msg }) = ([], [])) ∧
    (∀ (parse : String → Except String RawEvent) (tid : Option String) (s : Nat)
      (stx : String) (xh : Option String) (j : Option ErrData) (err : JsError),
      (handleStreamingResponse parse tid (FetchOutcome.resp
        { ok := true, status := s, statusText := stx, xThreadId := xh, json := j,
          body := some [ReadResult.exn err] })).snd = [err.message]) := by
  refine ⟨?_, ?_, ?_, ?_⟩
  · intro parse tid r h
    simp [handleStreamingResponse, h]
  · intro statusText m f d h
    simp [computeErrorMessage, h]
  · intro parse tid msg
    simp [handleStreamingResponse]
  · intro parse tid s stx xh j err
    simp [handleStreamingResponse, processStream]

def w6abortRead : ReadResult :=
  ReadResult.exn { name := "AbortError", message := "BodyStreamBuffer was aborted" }

/-- C6 counterexample: a request whose fetch succeeds but whose body
read is interrupted by a user-initiated abort delivers that abort to
the error callback — the callback fires exactly once — contradicting
the claim that an aborted request produces no error callback. -/
theorem C6_counterexample :
    handleStreamingResponse parseTok none (FetchOutcome.resp
        { ok := true, status := 200, statusText := "OK", body := some [w6abortRead] })
      = ([], ["BodyStreamBuffer was aborted"]) ∧
    (handleStreamingResponse parseTok none (FetchOutcome.resp
        { ok := true, status := 200, statusText := "OK", body := some [w6abortRead] })).snd
      ≠ [] := by
  exact ⟨by decide, by decide⟩

def w6err : ErrData := { detail0 := some ("bad", "field") }

def w6resp : FetchResponse := { ok := false, status := 422, statusText := "Unprocessable", json := some w6err }

/-- Witness for C6: a failing 422 response, the 422 extraction, a
fetch-level abort, and a read-level abort, all at concrete values. -/
theorem C6_witness :
    ((w6resp.ok = false) ∧
      (handleStreamingResponse parseTok (some "t") (FetchOutcome.resp w6resp)).snd
        = [computeErrorMessage w6resp.status w6resp.statusText w6resp.json]) ∧
    ((w6err.detail0 = some ("bad", "field")) ∧
      computeErrorMessage 422 "Unprocessable" (some w6err)
        = "Validation error: " ++ "bad" ++ " (" ++ "field" ++ ")") ∧
    (handleStreamingResponse parseTok (some "t")
      (FetchOutcome.throws { name := "AbortError", message := "aborted" }) = ([], [])) ∧
    ((handleStreamingResponse parseTok (some "t") (FetchOutcome.resp
        { ok := true, status := 200, statusText := "OK", xThreadId := none, json := none,
          body := some [ReadResult.exn { name := "AbortError", message := "read aborted" }] })).snd
      = ["read aborted"]) :=
  ⟨⟨by decide, C6_error_callback_paths.1 parseTok (some "t") w6resp (by decide)⟩,
    ⟨by decide, C6_error_callback_paths.2.1 "Unprocessable" "bad" "field" w6err (by decide)⟩,
    C6_error_callback_paths.2.2.1 parseTok (some "t") "aborted",
    C6_error_callback_paths.2.2.2 parseTok (some "t") 200 "OK" none none
      { name := "AbortError", message := "read aborted" }⟩

def w3loading : Message :=
  { id := "load1", role := Role.assistant, message := "", isLoading := some true }

def w3c : ChatController := { chat := { threadId := "t", messages := [w3loading] } }

/-- C3 counterexample: a transcript holding exactly one loading
placeholder still holds it after the controller reduces a tool_start
event — the claim that tool_start removes the loading placeholder is
false on the code. -/
theorem C3_counterexample :
    loadingCount w3c.chat = 1 ∧
    loadingCount ((w3c.reduce (StreamEvent.tool_start "t1" "lookup" "input")).fst).chat = 1 := by
  exact ⟨by decide, by decide⟩

def w3c0 : ChatController := { chat := { threadId := "t" } }

/-- Witness for C3 at a fresh controller. -/
theorem C3_witness :
    ((w3c0.chat.messages.any fun msg => msg.id == uuidv4 w3c0.nextUuid) = false) ∧
    ((w3c0.chat.messages.any fun msg => msg.id == uuidv4 (w3c0.nextUuid + 1)) = false) ∧
    (uuidv4 w3c0.nextUuid ≠ uuidv4 (w3c0.nextUuid + 1)) ∧
    ((w3c0.send "hi").fst.chat.messages
        = w3c0.chat.messages ++ [pendingUserMsg w3c0 "hi", loadingMsgOf w3c0] ∧
      (pendingUserMsg w3c0 "hi").isPending = some true ∧
      (loadingMsgOf w3c0).isLoading = some true) :=
  ⟨by decide, by decide, by decide,
    C3_loading_placeholder_lifecycle.1 w3c0 "hi" (by decide) (by decide) (by decide)⟩

/-- Witness for C1: two tokens on a fresh controller concatenate to
Hello. -/
theorem C1_witness :
    (∀ msg ∈ w1c.chat.messages, msg.id ≠ "m1") ∧
    (applyOps ((w1c.reduce (StreamEvent.assistant_start "m1" 5)).fst)
        (["He", "llo"].map (fun t => Op.ev (StreamEvent.assistant_token "m1" t)))).chat.getMessage "m1"
      = some (assistantMsg "m1" (concatTokens ["He", "llo"]) 5) :=
  ⟨by decide, C1_assistant_tokens_concatenate w1c "m1" 5 ["He", "llo"] (by decide)⟩

end Opey
